import Mathlib

/-!
A shallow embedding of the conversation-client logic of the Fashion
Assistant chatbot front end (`src/App.tsx` together with `src/utils/api.ts`).

The embedding models the component-local state (`messages`, `input`,
`isLoading`, `isConnected`) as an explicit record, and the two asynchronous
operations `checkConnection` and `handleSendMessage` as pure state
transformers parameterised by the outcome of the network call they await.
React's `setX` state updates are modelled by returning the updated record;
the crucial semantic point that the closure variable `messages` inside
`handleSendMessage` still denotes the render-time snapshot (so the history
sent to the server is computed from the transcript BEFORE the optimistic
append) is preserved faithfully.
-/

namespace FashionChatbot

/-- Message role, from the `Message` interface in `src/utils/api.ts`:
`role: 'user' | 'assistant'`. -/
inductive Role where
  | user
  | assistant
deriving DecidableEq, Repr

/-- Wire-level message (`Message` in `src/utils/api.ts`): role and content. -/
structure Message where
  role : Role
  content : String
deriving DecidableEq, Repr

/-- Client-local transcript entry (`ChatMessage` in `src/App.tsx`):
a `Message` extended with a client-local id and a creation timestamp. -/
structure ChatMessage where
  id : String
  role : Role
  content : String
  timestamp : Nat
deriving DecidableEq, Repr

/-- Body of `POST /chat` (`ChatRequest` in `src/utils/api.ts`). -/
structure ChatRequest where
  message : String
  conversation_history : List Message
deriving DecidableEq, Repr

/-- The component-local state of `App` in `src/App.tsx`: the four
`useState` hooks `messages`, `input`, `isLoading`, `isConnected`. -/
structure AppState where
  messages : List ChatMessage
  inputVal : String
  isLoading : Bool
  isConnected : Bool
deriving DecidableEq, Repr

/-- The initial values of the four state hooks: `[]`, the empty string,
`false`, `false`. -/
def initialState : AppState :=
  { messages := [], inputVal := "", isLoading := false, isConnected := false }

/-- Fixed welcome text seeded on a successful health probe (`src/App.tsx`). -/
def welcomeText : String :=
  "Hello! I\x27m your fashion assistant. How can I help you with your style today?"

/-- Fixed connectivity-error notice seeded on a failed health probe
(`src/App.tsx`). -/
def connectionTroubleText : String :=
  "I\x27m having trouble connecting to the fashion assistant service. Some features may be limited."

/-- Fixed generic error text appended when a send fails (`src/App.tsx`). -/
def requestErrorText : String :=
  "Sorry, I encountered an error while processing your request. Please try again."

/-- The fixed text used to recognise a locally generated connectivity-error
notice: the argument of `msg.content.startsWith(...)` in `src/App.tsx`. -/
def connectivityMarker : String := "I\x27m having trouble"

/-- JavaScript `String.prototype.startsWith`, modelled on the character
sequence of the string. -/
def strStarts (s pat : String) : Bool :=
  List.isPrefixOf pat.data s.data

/-- JavaScript truthiness of `input.trim()`: `!input.trim()` holds exactly
when every character of the input is whitespace (in particular for the empty
string). -/
def isBlankInput (s : String) : Bool :=
  s.data.all Char.isWhitespace

/-- Outcome of the awaited `chatApi.getHealth()` call: `healthy` when the
promise resolves (2xx), `unhealthy` when it rejects (network error or
non-success status, rethrown by `src/utils/api.ts`). -/
inductive ConnOutcome where
  | healthy
  | unhealthy
deriving DecidableEq, Repr

/-- Outcome of the awaited `chatApi.sendMessage` call: `success resp` when
the promise resolves with `{response: resp}`, `failure` when it rejects
(network error, non-2xx status, or any thrown exception — all rethrown by
`src/utils/api.ts` and caught by the `catch` block in `handleSendMessage`). -/
inductive ServiceOutcome where
  | success (resp : String)
  | failure
deriving DecidableEq, Repr

/-- `checkConnection` from the mount effect in `src/App.tsx`: on a healthy
probe it sets `isConnected` to true and seeds the transcript with the single
welcome message; on an unhealthy probe it seeds the transcript with the
single connectivity-error notice (leaving `isConnected` at its prior value —
the code never writes it in the catch branch). In both branches the
transcript is REPLACED by the one-element list, as `setMessages([...])` does. -/
def checkConnection (o : ConnOutcome) (now : Nat) (s : AppState) : AppState :=
  match o with
  | ConnOutcome.healthy =>
      { s with
        isConnected := true,
        messages :=
          [{ id := "welcome", role := Role.assistant, content := welcomeText,
             timestamp := now }] }
  | ConnOutcome.unhealthy =>
      { s with
        messages :=
          [{ id := "error", role := Role.assistant,
             content := connectionTroubleText, timestamp := now }] }

/-- The predicate of the `.filter` in `handleSendMessage`:
`msg.role !== 'assistant' || !msg.content.startsWith('I\x27m having trouble')`. -/
def keepInHistory (m : ChatMessage) : Bool :=
  !(m.role == Role.assistant) || !(strStarts m.content connectivityMarker)

/-- The conversation history prepared for the API in `handleSendMessage`:
filter the transcript by `keepInHistory`, then project each entry to
`{role, content}`. -/
def filterHistory (msgs : List ChatMessage) : List Message :=
  (msgs.filter keepInHistory).map (fun m => { role := m.role, content := m.content })

/-- `handleSendMessage` from `src/App.tsx`, as a state transformer
parameterised by the outcome of the awaited `chatApi.sendMessage` call.
Returns the new state together with the issued request (`none` when the
guard `!input.trim() || isLoading` rejects the invocation and nothing is
sent). The history is computed from `s.messages` — the render-time snapshot
captured by the closure — NOT from the list after the optimistic append,
because `setMessages` does not change the `messages` binding in scope.
The `finally` block clears `isLoading` on every accepted path. -/
def handleSendMessage (s : AppState) (o : ServiceOutcome) (now : Nat) :
    AppState × Option ChatRequest :=
  if isBlankInput s.inputVal || s.isLoading then (s, none)
  else
    let userMessage : ChatMessage :=
      { id := toString now, role := Role.user, content := s.inputVal,
        timestamp := now }
    let afterUser := s.messages ++ [userMessage]
    let conversationHistory := filterHistory s.messages
    let req : ChatRequest :=
      { message := s.inputVal, conversation_history := conversationHistory }
    match o with
    | ServiceOutcome.success resp =>
        ({ messages :=
             afterUser ++
               [{ id := "msg-" ++ toString now, role := Role.assistant,
                  content := resp, timestamp := now }],
           inputVal := "", isLoading := false,
           isConnected := s.isConnected }, some req)
    | ServiceOutcome.failure =>
        ({ messages :=
             afterUser ++
               [{ id := "error-" ++ toString now, role := Role.assistant,
                  content := requestErrorText, timestamp := now }],
           inputVal := "", isLoading := false,
           isConnected := s.isConnected }, some req)

/-- A user-interface event that can touch the conversation state after
mount: typing into the input (`setInput` via `onChange`), or submitting the
form (an invocation of `handleSendMessage` whose awaited network call has
outcome `o`). -/
inductive UiEvent where
  | setInputEv (t : String)
  | sendEv (o : ServiceOutcome) (now : Nat)
deriving Repr

/-- One step of the event-driven client. -/
def step (s : AppState) (e : UiEvent) : AppState :=
  match e with
  | UiEvent.setInputEv t => { s with inputVal := t }
  | UiEvent.sendEv o now => (handleSendMessage s o now).1

/-- Claim C1: for every accepted send (non-blank input, no send in flight),
`handleSendMessage` appends exactly one user message and then exactly one
assistant message — the service response text on success, the fixed generic
error text on failure — in that order, and nothing else. -/
theorem sendMessage_appends_user_then_assistant (s : AppState) (o : ServiceOutcome)
    (now : Nat) (hb : isBlankInput s.inputVal = false) (hl : s.isLoading = false) :
    ∃ u a : ChatMessage,
      (handleSendMessage s o now).1.messages = s.messages ++ [u, a] ∧
      u.role = Role.user ∧ u.content = s.inputVal ∧
      a.role = Role.assistant ∧
      a.content =
        (match o with
         | ServiceOutcome.success resp => resp
         | ServiceOutcome.failure => requestErrorText) := by
  cases o with
  | success resp =>
      refine ⟨{ id := toString now, role := Role.user, content := s.inputVal,
                timestamp := now },
              { id := "msg-" ++ toString now, role := Role.assistant,
                content := resp, timestamp := now }, ?_, rfl, rfl, rfl, rfl⟩
      simp [handleSendMessage, hb, hl]
  | failure =>
      refine ⟨{ id := toString now, role := Role.user, content := s.inputVal,
                timestamp := now },
              { id := "error-" ++ toString now, role := Role.assistant,
                content := requestErrorText, timestamp := now }, ?_, rfl, rfl, rfl, rfl⟩
      simp [handleSendMessage, hb, hl]

/-- Witness for C1: concrete accepted send with a failing service call. -/
theorem sendMessage_appends_user_then_assistant_witness :
    isBlankInput "hi" = false ∧
    ({ messages := [], inputVal := "hi", isLoading := false,
       isConnected := false } : AppState).isLoading = false ∧
    ∃ u a : ChatMessage,
      (handleSendMessage
          { messages := [], inputVal := "hi", isLoading := false,
            isConnected := false } ServiceOutcome.failure 3).1.messages =
        ({ messages := [], inputVal := "hi", isLoading := false,
           isConnected := false } : AppState).messages ++ [u, a] ∧
      u.role = Role.user ∧
      u.content =
        ({ messages := [], inputVal := "hi", isLoading := false,
           isConnected := false } : AppState).inputVal ∧
      a.role = Role.assistant ∧
      a.content =
        (match ServiceOutcome.failure with
         | ServiceOutcome.success resp => resp
         | ServiceOutcome.failure => requestErrorText) :=
  ⟨by decide, rfl,
   sendMessage_appends_user_then_assistant
     { messages := [], inputVal := "hi", isLoading := false, isConnected := false }
     ServiceOutcome.failure 3 (by decide) rfl⟩

/-- Claim C2, counterexample to the claim as stated: the claim says the
outgoing conversation_history equals the connectivity-error filter of the
transcript AFTER the optimistic append of the user message. On the empty
initial transcript with input "hi", the code issues an empty history, while
the filter of the post-append transcript contains the user message — so the
two differ. (`setMessages` does not change the closure variable `messages`.) -/
theorem history_snapshot_cex :
    (handleSendMessage
        { messages := [], inputVal := "hi", isLoading := false,
          isConnected := false } (ServiceOutcome.success "ok") 0).2 =
      some { message := "hi", conversation_history := [] } ∧
    filterHistory
        (({ messages := [], inputVal := "hi", isLoading := false,
            isConnected := false } : AppState).messages ++
          [{ id := "0", role := Role.user, content := "hi", timestamp := 0 }]) =
      [{ role := Role.user, content := "hi" }] ∧
    ([] : List Message) ≠ [({ role := Role.user, content := "hi" } : Message)] := by
  refine ⟨by decide, by decide, by decide⟩

/-- Claim C2 (amended): for every accepted send, the conversation_history
issued to the Chat Service equals the connectivity-error filter applied to
the transcript as it stood BEFORE the optimistic append of the user message;
the just-entered text travels in the request's `message` field instead. -/
theorem history_is_filter_of_pre_append_transcript (s : AppState) (o : ServiceOutcome)
    (now : Nat) (hb : isBlankInput s.inputVal = false) (hl : s.isLoading = false) :
    (handleSendMessage s o now).2 =
      some { message := s.inputVal, conversation_history := filterHistory s.messages } := by
  cases o <;> simp [handleSendMessage, hb, hl]

/-- Witness for the amended C2: concrete accepted send. -/
theorem history_is_filter_of_pre_append_transcript_witness :
    isBlankInput "hi" = false ∧
    (handleSendMessage
        { messages := [], inputVal := "hi", isLoading := false,
          isConnected := false } (ServiceOutcome.success "ok") 4).2 =
      some { message := "hi",
             conversation_history := filterHistory ([] : List ChatMessage) } :=
  ⟨by decide,
   history_is_filter_of_pre_append_transcript
     { messages := [], inputVal := "hi", isLoading := false, isConnected := false }
     (ServiceOutcome.success "ok") 4 (by decide) rfl⟩

/-- Claim C3, counterexample to the claim as stated: the claim says the
history contains no message OF ANY ROLE whose content matches the
connectivity-error text. The filter in the code keeps user-role messages
unconditionally, so a user message whose content is exactly the marker text
is passed through to the Chat Service. -/
theorem history_marker_any_role_cex :
    (handleSendMessage
        { messages :=
            [{ id := "1", role := Role.user, content := connectivityMarker,
               timestamp := 0 }],
          inputVal := "hi", isLoading := false, isConnected := false }
        (ServiceOutcome.success "ok") 2).2 =
      some { message := "hi",
             conversation_history :=
               [{ role := Role.user, content := connectivityMarker }] } ∧
    strStarts connectivityMarker connectivityMarker = true := by
  refine ⟨by decide, by decide⟩

/-- Claim C3 (amended): for every accepted send, the conversation_history
contains no ASSISTANT-role message whose content matches the fixed
connectivity-error text marker (user-role messages are kept regardless of
content), and it is an order-preserving selection of the transcript. -/
theorem history_excludes_assistant_connectivity_notices (s : AppState) (o : ServiceOutcome)
    (now : Nat) (hb : isBlankInput s.inputVal = false) (hl : s.isLoading = false) :
    ∃ req : ChatRequest, (handleSendMessage s o now).2 = some req ∧
      (∀ m ∈ req.conversation_history,
        ¬(m.role = Role.assistant ∧ strStarts m.content connectivityMarker = true)) ∧
      List.Sublist req.conversation_history
        (s.messages.map (fun m => ({ role := m.role, content := m.content } : Message))) := by
  refine ⟨{ message := s.inputVal, conversation_history := filterHistory s.messages },
          ?_, ?_, ?_⟩
  · cases o <;> simp [handleSendMessage, hb, hl]
  · intro m hm
    simp only [filterHistory] at hm
    rcases List.mem_map.mp hm with ⟨x, hxmem, rfl⟩
    rcases List.mem_filter.mp hxmem with ⟨-, hkeep⟩
    rintro ⟨hrole, hstart⟩
    have hrole2 : x.role = Role.assistant := hrole
    have hstart2 : strStarts x.content connectivityMarker = true := hstart
    simp [keepInHistory, hrole2, hstart2] at hkeep
  · exact (List.filter_sublist _).map _

/-- Witness for the amended C3: transcript holding the seeded assistant
connectivity notice; the issued history drops it. -/
theorem history_excludes_assistant_connectivity_notices_witness :
    isBlankInput "hi" = false ∧
    ∃ req : ChatRequest,
      (handleSendMessage
          { messages :=
              [{ id := "error", role := Role.assistant,
                 content := connectionTroubleText, timestamp := 0 }],
            inputVal := "hi", isLoading := false, isConnected := false }
          (ServiceOutcome.success "ok") 5).2 = some req ∧
      (∀ m ∈ req.conversation_history,
        ¬(m.role = Role.assistant ∧ strStarts m.content connectivityMarker = true)) ∧
      List.Sublist req.conversation_history
        (({ messages :=
              [{ id := "error", role := Role.assistant,
                 content := connectionTroubleText, timestamp := 0 }],
            inputVal := "hi", isLoading := false,
            isConnected := false } : AppState).messages.map
          (fun m => ({ role := m.role, content := m.content } : Message))) :=
  ⟨by decide,
   history_excludes_assistant_connectivity_notices
     { messages :=
         [{ id := "error", role := Role.assistant,
            content := connectionTroubleText, timestamp := 0 }],
       inputVal := "hi", isLoading := false, isConnected := false }
     (ServiceOutcome.success "ok") 5 (by decide) rfl⟩

/-- Claim C4: a send with blank (empty or whitespace-only) input, or one
arriving while a send is already in flight, is a no-op — the state is
returned unchanged (so the dropped invocation is not queued) and no request
is issued. -/
theorem rejected_send_is_noop (s : AppState) (o : ServiceOutcome) (now : Nat)
    (h : isBlankInput s.inputVal = true ∨ s.isLoading = true) :
    handleSendMessage s o now = (s, none) := by
  rcases h with h | h <;> simp [handleSendMessage, h]

/-- Witness for C4: one whitespace-only invocation and one invocation made
while a send is in flight; both leave the state untouched and send nothing. -/
theorem rejected_send_is_noop_witness :
    isBlankInput "   " = true ∧
    handleSendMessage
        { messages := [], inputVal := "   ", isLoading := false,
          isConnected := false } ServiceOutcome.failure 7 =
      ({ messages := [], inputVal := "   ", isLoading := false,
         isConnected := false }, none) ∧
    handleSendMessage
        { messages := [], inputVal := "hi", isLoading := true,
          isConnected := false } ServiceOutcome.failure 7 =
      ({ messages := [], inputVal := "hi", isLoading := true,
         isConnected := false }, none) :=
  ⟨by decide,
   rejected_send_is_noop _ _ _ (Or.inl (by decide)),
   rejected_send_is_noop _ _ _ (Or.inr rfl)⟩

/-- Claim C5: for every accepted send and either network outcome, the
operation yields a normal state (the embedding is a total function over both
outcomes, so no failure escapes to a caller), a request was issued, the
in-flight flag is false afterwards, and a thrown failure is converted into
the fixed assistant-role error message at the transcript tail. -/
theorem send_clears_inflight_and_converts_failures (s : AppState) (o : ServiceOutcome)
    (now : Nat) (hb : isBlankInput s.inputVal = false) (hl : s.isLoading = false) :
    (handleSendMessage s o now).1.isLoading = false ∧
    (handleSendMessage s o now).2.isSome = true ∧
    (o = ServiceOutcome.failure →
      (handleSendMessage s o now).1.messages.getLast? =
        some { id := "error-" ++ toString now, role := Role.assistant,
               content := requestErrorText, timestamp := now }) := by
  cases o <;> simp [handleSendMessage, hb, hl]

/-- Witness for C5: concrete accepted send whose network call fails. -/
theorem send_clears_inflight_and_converts_failures_witness :
    isBlankInput "hi" = false ∧
    ((handleSendMessage
        { messages := [], inputVal := "hi", isLoading := false,
          isConnected := false } ServiceOutcome.failure 6).1.isLoading = false ∧
     (handleSendMessage
        { messages := [], inputVal := "hi", isLoading := false,
          isConnected := false } ServiceOutcome.failure 6).2.isSome = true ∧
     (ServiceOutcome.failure = ServiceOutcome.failure →
       (handleSendMessage
          { messages := [], inputVal := "hi", isLoading := false,
            isConnected := false } ServiceOutcome.failure 6).1.messages.getLast? =
         some { id := "error-" ++ toString 6, role := Role.assistant,
                content := requestErrorText, timestamp := 6 })) :=
  ⟨by decide,
   send_clears_inflight_and_converts_failures
     { messages := [], inputVal := "hi", isLoading := false, isConnected := false }
     ServiceOutcome.failure 6 (by decide) rfl⟩

/-- Claim C6: `checkConnection`, run once at session start on the initial
state, seeds the transcript with exactly one fixed assistant message — the
welcome text and `isConnected = true` on a healthy probe, the trouble
connecting notice (with `isConnected` left false) on a failed probe. -/
theorem checkConnection_seeds_single_assistant (now : Nat) :
    (checkConnection ConnOutcome.healthy now initialState).messages =
      [{ id := "welcome", role := Role.assistant, content := welcomeText,
         timestamp := now }] ∧
    (checkConnection ConnOutcome.healthy now initialState).isConnected = true ∧
    (checkConnection ConnOutcome.unhealthy now initialState).messages =
      [{ id := "error", role := Role.assistant, content := connectionTroubleText,
         timestamp := now }] ∧
    (checkConnection ConnOutcome.unhealthy now initialState).isConnected = false := by
  simp [checkConnection, initialState]

/-- Claim C7: the transcript is append-only — `checkConnection` run at
session start extends the (empty) initial transcript, and every later
user-interface event (typing, or a send in any of its branches) leaves the
prior transcript as an unchanged initial segment of the new one. -/
theorem transcript_append_only (c : ConnOutcome) (now : Nat) (s : AppState) (e : UiEvent) :
    initialState.messages <+: (checkConnection c now initialState).messages ∧
    s.messages <+: (step s e).messages := by
  constructor
  · simp [initialState]
  · cases e with
    | setInputEv t => simp [step]
    | sendEv o now2 =>
        show s.messages <+: (handleSendMessage s o now2).1.messages
        unfold handleSendMessage
        split
        · exact List.prefix_refl _
        · cases o <;> exact ⟨_, (List.append_assoc _ _ _).symm⟩

/-- Claim C8: `handleSendMessage` never reads the connectivity flag — two
runs from states differing only in `isConnected` issue the same request
(or both none) and produce the same transcript, input and in-flight flag.
A failed health probe therefore does not gate sending. -/
theorem send_independent_of_connectivity (s : AppState) (b1 b2 : Bool)
    (o : ServiceOutcome) (now : Nat) :
    (handleSendMessage { s with isConnected := b1 } o now).1.messages =
      (handleSendMessage { s with isConnected := b2 } o now).1.messages ∧
    (handleSendMessage { s with isConnected := b1 } o now).2 =
      (handleSendMessage { s with isConnected := b2 } o now).2 ∧
    (handleSendMessage { s with isConnected := b1 } o now).1.inputVal =
      (handleSendMessage { s with isConnected := b2 } o now).1.inputVal ∧
    (handleSendMessage { s with isConnected := b1 } o now).1.isLoading =
      (handleSendMessage { s with isConnected := b2 } o now).1.isLoading := by
  by_cases h : (isBlankInput s.inputVal || s.isLoading) = true <;>
    cases o <;> simp [handleSendMessage, h]

/-- Claim C9: the history filter removes only assistant-role messages
matching the connectivity marker; an assistant message carrying the fixed
request-error text does not match the marker, so whenever the transcript
holds one, every later accepted send includes it in the issued
conversation_history. -/
theorem request_error_messages_survive_filter (s : AppState) (o : ServiceOutcome)
    (now : Nat) (m : ChatMessage) (hmem : m ∈ s.messages)
    (hrole : m.role = Role.assistant) (hcontent : m.content = requestErrorText)
    (hb : isBlankInput s.inputVal = false) (hl : s.isLoading = false) :
    ∃ req : ChatRequest, (handleSendMessage s o now).2 = some req ∧
      ({ role := Role.assistant, content := requestErrorText } : Message) ∈
        req.conversation_history ∧
      ∀ x ∈ s.messages, keepInHistory x = false →
        x.role = Role.assistant ∧ strStarts x.content connectivityMarker = true := by
  refine ⟨{ message := s.inputVal, conversation_history := filterHistory s.messages },
          ?_, ?_, ?_⟩
  · cases o <;> simp [handleSendMessage, hb, hl]
  · have hkeep : keepInHistory m = true := by
      have hs : strStarts requestErrorText connectivityMarker = false := by decide
      simp [keepInHistory, hcontent, hs]
    simp only [filterHistory]
    exact List.mem_map.mpr ⟨m, List.mem_filter.mpr ⟨hmem, hkeep⟩, by simp [hrole, hcontent]⟩
  · intro x hx hkeepf
    simpa [keepInHistory] using hkeepf

/-- Witness for C9: transcript holding the request-error assistant message
left by an earlier failed send; the next send keeps it in the history. -/
theorem request_error_messages_survive_filter_witness :
    ({ id := "error-1", role := Role.assistant, content := requestErrorText,
       timestamp := 1 } : ChatMessage) ∈
      [({ id := "error-1", role := Role.assistant, content := requestErrorText,
          timestamp := 1 } : ChatMessage)] ∧
    isBlankInput "again" = false ∧
    ∃ req : ChatRequest,
      (handleSendMessage
          { messages :=
              [{ id := "error-1", role := Role.assistant,
                 content := requestErrorText, timestamp := 1 }],
            inputVal := "again", isLoading := false, isConnected := false }
          (ServiceOutcome.success "ok") 8).2 = some req ∧
      ({ role := Role.assistant, content := requestErrorText } : Message) ∈
        req.conversation_history ∧
      ∀ x ∈ ({ messages :=
                 [{ id := "error-1", role := Role.assistant,
                    content := requestErrorText, timestamp := 1 }],
               inputVal := "again", isLoading := false,
               isConnected := false } : AppState).messages,
        keepInHistory x = false →
          x.role = Role.assistant ∧ strStarts x.content connectivityMarker = true :=
  ⟨by decide, by decide,
   request_error_messages_survive_filter
     { messages :=
         [{ id := "error-1", role := Role.assistant, content := requestErrorText,
            timestamp := 1 }],
       inputVal := "again", isLoading := false, isConnected := false }
     (ServiceOutcome.success "ok") 8
     { id := "error-1", role := Role.assistant, content := requestErrorText,
       timestamp := 1 }
     (by decide) rfl rfl (by decide) rfl⟩

/-- Claim C10: for every accepted send, the stored user message and the
request's `message` field carry the raw input text, leading and trailing
whitespace included — trimming enters only the acceptance check. -/
theorem raw_input_transmitted (s : AppState) (o : ServiceOutcome) (now : Nat)
    (hb : isBlankInput s.inputVal = false) (hl : s.isLoading = false) :
    ∃ u a : ChatMessage, ∃ req : ChatRequest,
      (handleSendMessage s o now).1.messages = s.messages ++ [u, a] ∧
      u.content = s.inputVal ∧ u.role = Role.user ∧
      (handleSendMessage s o now).2 = some req ∧ req.message = s.inputVal := by
  cases o with
  | success resp =>
      refine ⟨{ id := toString now, role := Role.user, content := s.inputVal,
                timestamp := now },
              { id := "msg-" ++ toString now, role := Role.assistant,
                content := resp, timestamp := now },
              { message := s.inputVal, conversation_history := filterHistory s.messages },
              ?_, rfl, rfl, ?_, rfl⟩ <;>
        simp [handleSendMessage, hb, hl]
  | failure =>
      refine ⟨{ id := toString now, role := Role.user, content := s.inputVal,
                timestamp := now },
              { id := "error-" ++ toString now, role := Role.assistant,
                content := requestErrorText, timestamp := now },
              { message := s.inputVal, conversation_history := filterHistory s.messages },
              ?_, rfl, rfl, ?_, rfl⟩ <;>
        simp [handleSendMessage, hb, hl]

/-- Witness for C10: input with leading and trailing spaces is stored and
transmitted verbatim. -/
theorem raw_input_transmitted_witness :
    isBlankInput "  navy  " = false ∧
    ∃ u a : ChatMessage, ∃ req : ChatRequest,
      (handleSendMessage
          { messages := [], inputVal := "  navy  ", isLoading := false,
            isConnected := false } (ServiceOutcome.success "ok") 9).1.messages =
        ({ messages := [], inputVal := "  navy  ", isLoading := false,
           isConnected := false } : AppState).messages ++ [u, a] ∧
      u.content =
        ({ messages := [], inputVal := "  navy  ", isLoading := false,
           isConnected := false } : AppState).inputVal ∧
      u.role = Role.user ∧
      (handleSendMessage
          { messages := [], inputVal := "  navy  ", isLoading := false,
            isConnected := false } (ServiceOutcome.success "ok") 9).2 = some req ∧
      req.message =
        ({ messages := [], inputVal := "  navy  ", isLoading := false,
           isConnected := false } : AppState).inputVal :=
  ⟨by decide,
   raw_input_transmitted
     { messages := [], inputVal := "  navy  ", isLoading := false,
       isConnected := false }
     (ServiceOutcome.success "ok") 9 (by decide) rfl⟩

end FashionChatbot
